import Mathlib

/-!
Shallow embedding of `src/app.py` (a Flask dashboard that fetches orbital
element sets from space-track.org, derives altitude/inclination per object
and renders charts).  External effects (HTTP responses, the skyfield orbital
model, plotly chart rendering, `datetime.strptime`) are modelled as explicit
inputs/parameters; the repository's own control flow and arithmetic are
translated directly.  A Python expression that raises an uncaught exception
is modelled as `none`.
-/

set_option autoImplicit false
set_option maxRecDepth 4000

namespace App

/-- A timestamp as produced by `datetime.datetime.strptime` with the fixed
format string; only the six broken-down fields the program uses. -/
structure DT where
  year : Nat
  month : Nat
  day : Nat
  hour : Nat
  minute : Nat
  second : Nat
deriving DecidableEq, Repr

/-- Left-pad the decimal representation of `n` with zeros to width `w`,
as `strftime` padding does. -/
def pad (w : Nat) (n : Nat) : String :=
  let s := toString n
  String.mk (List.replicate (w - s.length) '0') ++ s

/-- Embedding of line 42: `target_time.strftime("%Y-%m-%dT%H:%M:%SZ")`. -/
def strftimeISO (t : DT) : String :=
  pad 4 t.year ++ "-" ++ pad 2 t.month ++ "-" ++ pad 2 t.day ++ "T" ++
    pad 2 t.hour ++ ":" ++ pad 2 t.minute ++ ":" ++ pad 2 t.second ++ "Z"

/-- Embedding of line 43: the space-track query URL f-string.  `%3E` is the
URL-encoding of `>` and `%3C` of `<`. -/
def buildQueryUrl (t : DT) : String :=
  "https://www.space-track.org/basicspacedata/query/class/gp/EPOCH/%3E" ++
    strftimeISO t ++
    "/MEAN_MOTION/%3E11.25/ECCENTRICITY/%3C0.25/OBJECT_TYPE/payload/orderby/NORAD_CAT_ID,EPOCH/format/3le"

/-- An HTTP response as the program observes it: a status code and a body. -/
structure HttpResponse where
  status_code : Nat
  text : String
deriving DecidableEq, Repr

/-- What the remote provider would answer to the two calls the fetcher can
make: the login POST and the data GET. -/
structure Network where
  loginResponse : HttpResponse
  dataResponse : HttpResponse
deriving DecidableEq, Repr

/-- An outbound call actually issued by the fetcher. -/
inductive NetCall where
  | post (url : String)
  | get (url : String)
deriving DecidableEq, Repr

/-- Line 86: the fixed login endpoint. -/
def login_url : String := "https://www.space-track.org/ajaxauth/login"

/-- Embedding of Python `str.splitlines` restricted to the line boundaries
`\n`, `\r\n` and `\r`: segments between terminators; a final segment is kept
only when nonempty (so a trailing terminator adds no empty line and the
empty string yields the empty list). -/
def splitlinesAux : List Char → List Char → List String
  | [], acc => if acc.isEmpty then [] else [String.mk acc.reverse]
  | '\r' :: '\n' :: rest, acc => String.mk acc.reverse :: splitlinesAux rest []
  | '\n' :: rest, acc => String.mk acc.reverse :: splitlinesAux rest []
  | '\r' :: rest, acc => String.mk acc.reverse :: splitlinesAux rest []
  | c :: rest, acc => splitlinesAux rest (c :: acc)

/-- `data_response.text.splitlines()` from line 93. -/
def splitlines (s : String) : List String :=
  splitlinesAux s.data []

/-- Embedding of `get_space_track_data` (lines 84-95).  The `Network` value
supplies the responses the two HTTP calls would receive; the second
component of the result records which outbound calls were issued, in order.
Returns `none` exactly where the Python function returns `None`. -/
def get_space_track_data (net : Network) (url : String) :
    Option (List String) × List NetCall :=
  let login_response := net.loginResponse
  if login_response.status_code = 200 then
    let data_response := net.dataResponse
    if data_response.status_code = 200 then
      (some (splitlines data_response.text),
        [NetCall.post login_url, NetCall.get url])
    else
      (none, [NetCall.post login_url, NetCall.get url])
  else
    (none, [NetCall.post login_url])

/-- Embedding of the record-extraction loop (lines 50-57):
`for i in range(0, len(data), 3)` appending `data[i][2:]`, `data[i+1]`,
`data[i+2]` to three lists.  Consuming three lines per step is the same
iteration; a step that still has a name line but fewer than two further
lines is the iteration in which `data[i+1]` or `data[i+2]` raises
`IndexError`, modelled as `none`. -/
def extractRecords : List String → Option (List String × List String × List String)
  | [] => some ([], [], [])
  | [_] => none
  | [_, _] => none
  | name :: l1 :: l2 :: rest =>
    match extractRecords rest with
    | some (ns, t1s, t2s) => some (name.drop 2 :: ns, l1 :: t1s, l2 :: t2s)
    | none => none

/-- The orbital model object returned by the external library
(`sat.model`); the program reads exactly two fields: semi-major axis `a`
in Earth radii and inclination `inclo` in radians. -/
structure OrbitalModel where
  a : ℝ
  inclo : ℝ

/-- Line 63: `sat.model.a * 6378.15 - 6378.15`. -/
def altitudeKm (m : OrbitalModel) : ℝ := m.a * 6378.15 - 6378.15

/-- Line 64: `np.rad2deg(sat.model.inclo)`, i.e. multiplication by
`180 / pi`. -/
noncomputable def inclinationDeg (m : OrbitalModel) : ℝ := m.inclo * (180 / Real.pi)

/-- Pipeline stages of `generate_plots` that ran after a successful fetch,
in order: the extraction loop, the satellite/derivation comprehension (with
how many objects), the chart construction. -/
inductive PlotEvent where
  | extracted
  | derived (n : Nat)
  | plotted
deriving DecidableEq, Repr

/-- Embedding of `generate_plots` (lines 41-81).  `fetchData` abstracts
`get_space_track_data` applied to the module credentials, `deriveModel`
abstracts `get_satellite(...).model` (skyfield), `buildChart` abstracts the
plotly figure construction and serialization from the altitude and
inclination samples.  First component `none` models an uncaught exception;
the second component records which pipeline stages ran. -/
noncomputable def generate_plots (fetchData : String → Option (List String))
    (deriveModel : String → String → OrbitalModel)
    (buildChart : DT → List ℝ → List ℝ → String)
    (target_time : DT) : Option String × List PlotEvent :=
  let url := buildQueryUrl target_time
  match fetchData url with
  | none => (some "<p>No data available for the selected date.</p>", [])
  | some data =>
    match extractRecords data with
    | none => (none, [PlotEvent.extracted])
    | some (_ns, t1s, t2s) =>
      let sats := List.zipWith deriveModel t1s t2s
      let altitudes := sats.map altitudeKm
      let inclinations := sats.map inclinationDeg
      (some (buildChart target_time altitudes inclinations),
        [PlotEvent.extracted, PlotEvent.derived sats.length, PlotEvent.plotted])

/-- The response of the `index` handler: either the JSON error object
`jsonify({"error": msg})` or the rendered page with its ordered list of
plot fragments. -/
inductive Response where
  | json (error : String)
  | page (plot_divs : List String)
deriving DecidableEq, Repr

/-- The literal error message from line 34. -/
def invalid_date_msg : String :=
  "Invalid date format. Please use 'YYYY-MM-DD HH:MM:SS'."

/-- The per-date loop of `index` (lines 27-39), with `plot_divs` as the
accumulator.  `strptime` abstracts `datetime.datetime.strptime` with the
fixed format (`none` models the `ValueError` branch); `gen` abstracts
`generate_plots`. -/
def indexLoop (strptime : String → Option DT) (gen : DT → String) :
    List String → List String → Response
  | [], plot_divs => Response.page plot_divs
  | date_str :: rest, plot_divs =>
    if date_str = "" then
      indexLoop strptime gen rest plot_divs
    else
      match strptime date_str with
      | none => Response.json invalid_date_msg
      | some target_time =>
        indexLoop strptime gen rest (plot_divs ++ [gen target_time])

/-- Embedding of the `index` handler (lines 19-39) over the list of
`date_input` query-parameter values. -/
def index (strptime : String → Option DT) (gen : DT → String)
    (date_strs : List String) : Response :=
  indexLoop strptime gen date_strs []

/-- Substring containment at the level of the underlying character
sequences, used to state which filter tokens the query URL carries. -/
def containsStr (s pat : String) : Prop := pat.data <:+: s.data

instance (s pat : String) : Decidable (containsStr s pat) :=
  inferInstanceAs (Decidable (pat.data <:+: s.data))

/-! ## Theorems -/

theorem containsStr_appendLeft (s1 s2 pat : String) (h : containsStr s1 pat) :
    containsStr (s1 ++ s2) pat := by
  unfold containsStr at h ⊢
  rw [String.data_append]
  exact h.trans (List.prefix_append s1.data s2.data).isInfix

theorem containsStr_appendRight (s1 s2 pat : String) (h : containsStr s2 pat) :
    containsStr (s1 ++ s2) pat := by
  unfold containsStr at h ⊢
  rw [String.data_append]
  exact h.trans (List.suffix_append s1.data s2.data).isInfix

/-- C3: the derived quantities are exactly the stated functions of the
model fields: `altitudeKm = a * 6378.15 - 6378.15` (so `a = 1` gives `0`
and `a = 1.1` gives `637.815`) and `inclinationDeg = degrees(inclo)` (so
`inclo = 0` gives `0` and `inclo = pi/2` gives `90`). -/
theorem altitude_inclination_formulas :
    (∀ m : OrbitalModel, altitudeKm m = m.a * 6378.15 - 6378.15) ∧
    (∀ m : OrbitalModel, inclinationDeg m = m.inclo * (180 / Real.pi)) ∧
    altitudeKm ⟨1, 0⟩ = 0 ∧
    altitudeKm ⟨1.1, 0⟩ = 637.815 ∧
    inclinationDeg ⟨1, 0⟩ = 0 ∧
    inclinationDeg ⟨1, Real.pi / 2⟩ = 90 := by
  refine ⟨fun _ => rfl, fun _ => rfl, ?_, ?_, ?_, ?_⟩
  · norm_num [altitudeKm]
  · norm_num [altitudeKm]
  · norm_num [inclinationDeg]
  · have hpi := Real.pi_ne_zero
    simp only [inclinationDeg]
    field_simp
    ring

/-- C4: the fetcher returns the `None` sentinel exactly when the login
status or the data status is not 200 (all failure modes uniform, and the
embedding is a total function, so nothing is raised to the caller);
otherwise it returns the data response body split into lines. -/
theorem fetch_sentinel_iff_non200 (net : Network) (url : String) :
    ((get_space_track_data net url).1 =
      if net.loginResponse.status_code = 200 ∧ net.dataResponse.status_code = 200
      then some (splitlines net.dataResponse.text) else none) ∧
    ((get_space_track_data net url).1 = none ↔
      (net.loginResponse.status_code ≠ 200 ∨ net.dataResponse.status_code ≠ 200)) := by
  by_cases h1 : net.loginResponse.status_code = 200 <;>
    by_cases h2 : net.dataResponse.status_code = 200 <;>
      simp [get_space_track_data, h1, h2]

theorem extractRecords_incomplete_aux :
    ∀ (k : Nat) (data : List String), data.length ≤ k → data.length % 3 ≠ 0 →
      extractRecords data = none := by
  intro k
  induction k with
  | zero =>
    intro data hle h
    have hd : data = [] := List.length_eq_zero.mp (Nat.le_zero.mp hle)
    subst hd
    simp at h
  | succ k ih =>
    intro data hle h
    rcases data with _ | ⟨a, _ | ⟨b, _ | ⟨c, rest⟩⟩⟩
    · simp at h
    · rfl
    · rfl
    · have h3 : rest.length % 3 ≠ 0 := by
        simp only [List.length_cons] at h
        omega
      have hle' : rest.length ≤ k := by
        simp only [List.length_cons] at hle
        omega
      have hr := ih rest hle' h3
      simp [extractRecords, hr]

/-- C1 (amended): a line count not divisible by 3 is not dropped silently:
the final loop iteration still fires and reads `data[i+1]` or `data[i+2]`
past the end of the sequence, so the extraction raises `IndexError`
(modelled as `none`) instead of producing the complete records. -/
theorem partial_record_raises (data : List String) (h : data.length % 3 ≠ 0) :
    extractRecords data = none :=
  extractRecords_incomplete_aux data.length data le_rfl h

/-- C1 counterexample: on a concrete 7-line input the extraction loop does
not return 2 records with the trailing line discarded; its third iteration
(`i = 6`) reads index 7, past the end, so the run aborts (`none`). -/
theorem seven_lines_not_two_records :
    extractRecords ["0 SAT-A", "1 11111A", "2 11111A",
      "0 SAT-B", "1 22222B", "2 22222B", "0 SAT-C"] = none := rfl

/-- Witness for the amended C1 on an 8-line input (the `len % 3 = 2`
case). -/
theorem partial_record_raises_witness :
    (["0 SAT-A", "1 11111A", "2 11111A", "0 SAT-B", "1 22222B", "2 22222B",
        "0 SAT-C", "1 33333C"] : List String).length % 3 ≠ 0 ∧
    extractRecords ["0 SAT-A", "1 11111A", "2 11111A", "0 SAT-B", "1 22222B",
        "2 22222B", "0 SAT-C", "1 33333C"] = none :=
  ⟨by decide, partial_record_raises _ (by decide)⟩

theorem extractRecords_complete_aux :
    ∀ (k : Nat) (data : List String), data.length ≤ k → data.length % 3 = 0 →
      extractRecords data = some (
        (List.range (data.length / 3)).map (fun j => (data.getD (3 * j) "").drop 2),
        (List.range (data.length / 3)).map (fun j => data.getD (3 * j + 1) ""),
        (List.range (data.length / 3)).map (fun j => data.getD (3 * j + 2) "")) := by
  intro k
  induction k with
  | zero =>
    intro data hle _
    have hd : data = [] := List.length_eq_zero.mp (Nat.le_zero.mp hle)
    subst hd
    rfl
  | succ k ih =>
    intro data hle h3
    rcases data with _ | ⟨a, _ | ⟨b, _ | ⟨c, rest⟩⟩⟩
    · rfl
    · simp at h3
    · simp at h3
    · have h3' : rest.length % 3 = 0 := by
        simp only [List.length_cons] at h3
        omega
      have hle' : rest.length ≤ k := by
        simp only [List.length_cons] at hle
        omega
      have hdiv : (a :: b :: c :: rest).length / 3 = rest.length / 3 + 1 := by
        simp only [List.length_cons]
        omega
      have hr := ih rest hle' h3'
      simp only [extractRecords, hr]
      rw [hdiv]
      simp only [List.range_succ_eq_map, List.map_cons, List.map_map]
      rfl

/-- C2: on a line count divisible by 3 the extraction produces three
parallel sequences, each of length `len / 3`: for every record index `j`
the name is line `3j` with its first two characters removed, the first
element line is line `3j + 1` and the second is line `3j + 2`. -/
theorem well_formed_triplets_extracted (data : List String)
    (h : data.length % 3 = 0) :
    extractRecords data = some (
      (List.range (data.length / 3)).map (fun j => (data.getD (3 * j) "").drop 2),
      (List.range (data.length / 3)).map (fun j => data.getD (3 * j + 1) ""),
      (List.range (data.length / 3)).map (fun j => data.getD (3 * j + 2) "")) ∧
    ((extractRecords data).map fun r => r.1.length) = some (data.length / 3) ∧
    ((extractRecords data).map fun r => r.2.1.length) = some (data.length / 3) ∧
    ((extractRecords data).map fun r => r.2.2.length) = some (data.length / 3) := by
  have he := extractRecords_complete_aux data.length data le_rfl h
  refine ⟨he, ?_, ?_, ?_⟩ <;> simp [he]

/-- Witness for C2 on a concrete 6-line input: two records, names with the
2-character prefix stripped. -/
theorem well_formed_triplets_extracted_witness :
    (["0 ISS (ZARYA)", "1 25544U", "2 25544",
        "0 CSS (TIANHE)", "1 48274U", "2 48274"] : List String).length % 3 = 0 ∧
    extractRecords ["0 ISS (ZARYA)", "1 25544U", "2 25544",
        "0 CSS (TIANHE)", "1 48274U", "2 48274"] =
      some (["ISS (ZARYA)", "CSS (TIANHE)"],
        ["1 25544U", "1 48274U"], ["2 25544", "2 48274"]) :=
  ⟨by decide, ((well_formed_triplets_extracted _ (by decide)).1).trans (by decide)⟩

/-- C7: the data GET is issued only after a successful login: whenever the
call trace contains a GET, the login response status was 200. -/
theorem data_get_requires_login_success (net : Network) (url u : String)
    (h : NetCall.get u ∈ (get_space_track_data net url).2) :
    net.loginResponse.status_code = 200 := by
  by_cases h1 : net.loginResponse.status_code = 200
  · exact h1
  · simp [get_space_track_data, h1] at h

/-- Witness for C7: on a network where both calls succeed, the GET is in
the trace and the theorem yields login status 200. -/
theorem data_get_requires_login_success_witness :
    NetCall.get "q" ∈ (get_space_track_data ⟨⟨200, ""⟩, ⟨200, ""⟩⟩ "q").2 ∧
    (⟨⟨200, ""⟩, ⟨200, ""⟩⟩ : Network).loginResponse.status_code = 200 := by
  have h : NetCall.get "q" ∈ (get_space_track_data ⟨⟨200, ""⟩, ⟨200, ""⟩⟩ "q").2 := by
    simp [get_space_track_data]
  exact ⟨h, data_get_requires_login_success _ _ _ h⟩

theorem indexLoop_error_aux (strptime : String → Option DT) (gen : DT → String) :
    ∀ (l : List String) (acc : List String),
      (∃ d ∈ l, d ≠ "" ∧ strptime d = none) →
      indexLoop strptime gen l acc = Response.json invalid_date_msg := by
  intro l
  induction l with
  | nil =>
    intro acc h
    simp at h
  | cons d rest ih =>
    intro acc h
    by_cases hd : d = ""
    · subst hd
      simp only [indexLoop, if_pos rfl]
      apply ih
      rcases h with ⟨e, he, hne, hnone⟩
      rcases List.mem_cons.mp he with rfl | hmem
      · exact absurd rfl hne
      · exact ⟨e, hmem, hne, hnone⟩
    · cases hp : strptime d with
      | none => simp [indexLoop, hd, hp]
      | some t =>
        simp only [indexLoop, if_neg hd, hp]
        apply ih
        rcases h with ⟨e, he, hne, hnone⟩
        rcases List.mem_cons.mp he with rfl | hmem
        · rw [hp] at hnone
          exact absurd hnone (by simp)
        · exact ⟨e, hmem, hne, hnone⟩

/-- C5: if any non-empty `date_input` value fails to parse, the handler
answers with exactly the JSON error object and renders no panels (the
response is the `json` constructor, not a `page`), discarding all other
values. -/
theorem invalid_date_returns_error (strptime : String → Option DT)
    (gen : DT → String) (date_strs : List String)
    (h : ∃ d ∈ date_strs, d ≠ "" ∧ strptime d = none) :
    index strptime gen date_strs =
      Response.json "Invalid date format. Please use 'YYYY-MM-DD HH:MM:SS'." :=
  indexLoop_error_aux strptime gen date_strs [] h

/-- Witness for C5: a valid date before and after the bad one are discarded
and the response is the error object. -/
theorem invalid_date_returns_error_witness :
    (∃ d ∈ (["2024-01-01 00:00:00", "not-a-date", "2024-01-02 00:00:00"] : List String),
      d ≠ "" ∧ (fun s => if s = "not-a-date" then none else some (⟨2024, 1, 1, 0, 0, 0⟩ : DT)) d = none) ∧
    index (fun s => if s = "not-a-date" then none else some (⟨2024, 1, 1, 0, 0, 0⟩ : DT))
        (fun _ => "panel") ["2024-01-01 00:00:00", "not-a-date", "2024-01-02 00:00:00"] =
      Response.json "Invalid date format. Please use 'YYYY-MM-DD HH:MM:SS'." := by
  have h : ∃ d ∈ (["2024-01-01 00:00:00", "not-a-date", "2024-01-02 00:00:00"] : List String),
      d ≠ "" ∧ (fun s => if s = "not-a-date" then none else some (⟨2024, 1, 1, 0, 0, 0⟩ : DT)) d = none :=
    ⟨"not-a-date", by simp, by decide, by simp⟩
  exact ⟨h, invalid_date_returns_error _ _ _ h⟩

theorem indexLoop_valid_aux (strptime : String → Option DT) (gen : DT → String) :
    ∀ (l : List String) (acc : List String),
      (∀ d ∈ l, d ≠ "" → (strptime d).isSome) →
      indexLoop strptime gen l acc =
        Response.page (acc ++ l.filterMap fun d =>
          if d = "" then none else (strptime d).map gen) := by
  intro l
  induction l with
  | nil =>
    intro acc _
    simp [indexLoop]
  | cons d rest ih =>
    intro acc h
    by_cases hd : d = ""
    · subst hd
      simp only [indexLoop, if_pos rfl, List.filterMap_cons, if_pos rfl]
      exact ih acc fun e he => h e (List.mem_cons_of_mem _ he)
    · cases hp : strptime d with
      | none =>
        have := h d (List.mem_cons_self d rest) hd
        rw [hp] at this
        simp at this
      | some t =>
        simp only [indexLoop, if_neg hd, hp, List.filterMap_cons, if_neg hd,
          Option.map_some]
        rw [ih (acc ++ [gen t]) fun e he => h e (List.mem_cons_of_mem _ he)]
        simp

/-- C6: when every non-empty `date_input` value parses, the page holds
exactly one panel per non-empty value, in input order (in particular the
empty list of values yields an empty page). -/
theorem valid_dates_one_panel_each (strptime : String → Option DT)
    (gen : DT → String) (date_strs : List String)
    (h : ∀ d ∈ date_strs, d ≠ "" → (strptime d).isSome) :
    index strptime gen date_strs =
      Response.page (date_strs.filterMap fun d =>
        if d = "" then none else (strptime d).map gen) :=
  indexLoop_valid_aux strptime gen date_strs [] h

/-- Witness for C6: two valid values and one empty value give exactly two
panels, in input order; the panel label records which date produced it. -/
theorem valid_dates_one_panel_each_witness :
    (∀ d ∈ (["2024-01-01 00:00:00", "", "2024-01-02 00:00:00"] : List String),
      d ≠ "" → ((fun s => some (⟨2024, 1, s.length, 0, 0, 0⟩ : DT)) d).isSome) ∧
    index (fun s => some (⟨2024, 1, s.length, 0, 0, 0⟩ : DT))
        (fun t => toString t.day) ["2024-01-01 00:00:00", "", "2024-01-02 00:00:00"] =
      Response.page ["19", "19"] := by
  have h : ∀ d ∈ (["2024-01-01 00:00:00", "", "2024-01-02 00:00:00"] : List String),
      d ≠ "" → ((fun s => some (⟨2024, 1, s.length, 0, 0, 0⟩ : DT)) d).isSome := by
    intro d _ _
    rfl
  exact ⟨h, (valid_dates_one_panel_each _ _ _ h).trans (by decide)⟩

/-- C8: when the fetch for a timestamp returns the sentinel, the panel is
the literal placeholder markup and no pipeline stage after the fetch runs
(the event trace is empty: no extraction, no derivation, no plotting). -/
theorem fetch_failure_placeholder (fetchData : String → Option (List String))
    (deriveModel : String → String → OrbitalModel)
    (buildChart : DT → List ℝ → List ℝ → String) (t : DT)
    (h : fetchData (buildQueryUrl t) = none) :
    generate_plots fetchData deriveModel buildChart t =
      (some "<p>No data available for the selected date.</p>", []) := by
  simp [generate_plots, h]

/-- Witness for C8: a stubbed fetcher that always fails yields the
placeholder fragment and an empty stage trace. -/
theorem fetch_failure_placeholder_witness :
    ((fun _ : String => (none : Option (List String)))
        (buildQueryUrl ⟨2024, 1, 1, 0, 0, 0⟩) = none) ∧
    generate_plots (fun _ => none) (fun _ _ => ⟨1, 0⟩) (fun _ _ _ => "chart")
        ⟨2024, 1, 1, 0, 0, 0⟩ =
      (some "<p>No data available for the selected date.</p>", []) :=
  ⟨rfl, fetch_failure_placeholder _ _ _ _ rfl⟩

/-- C10: when login and data call both return 200 but the body is the
empty string, `splitlines` gives the empty list, so the fetcher returns
`some []` rather than the sentinel, and `generate_plots` runs the whole
chart pipeline over zero samples instead of the placeholder. -/
theorem empty_body_zero_sample_chart (net : Network) (url : String)
    (h1 : net.loginResponse.status_code = 200)
    (h2 : net.dataResponse.status_code = 200)
    (h3 : net.dataResponse.text = "") :
    (get_space_track_data net url).1 = some [] ∧
    ∀ (deriveModel : String → String → OrbitalModel)
      (buildChart : DT → List ℝ → List ℝ → String) (t : DT),
      generate_plots (fun u => (get_space_track_data net u).1)
          deriveModel buildChart t =
        (some (buildChart t [] []),
          [PlotEvent.extracted, PlotEvent.derived 0, PlotEvent.plotted]) := by
  have hf : ∀ u, (get_space_track_data net u).1 = some [] := by
    intro u
    simp [get_space_track_data, h1, h2, h3, splitlines, splitlinesAux]
  refine ⟨hf url, ?_⟩
  intro deriveModel buildChart t
  simp [generate_plots, hf, extractRecords]

/-- Witness for C10: concrete 200/200 responses with an empty body produce
`some []` and a zero-sample chart fragment, not the placeholder. -/
theorem empty_body_zero_sample_chart_witness :
    ((⟨⟨200, "ok"⟩, ⟨200, ""⟩⟩ : Network).loginResponse.status_code = 200) ∧
    ((⟨⟨200, "ok"⟩, ⟨200, ""⟩⟩ : Network).dataResponse.status_code = 200) ∧
    ((⟨⟨200, "ok"⟩, ⟨200, ""⟩⟩ : Network).dataResponse.text = "") ∧
    (get_space_track_data ⟨⟨200, "ok"⟩, ⟨200, ""⟩⟩ "u").1 = some [] ∧
    generate_plots (fun u => (get_space_track_data ⟨⟨200, "ok"⟩, ⟨200, ""⟩⟩ u).1)
        (fun _ _ => ⟨1, 0⟩) (fun _ _ _ => "zero-sample chart") ⟨2024, 1, 1, 0, 0, 0⟩ =
      (some "zero-sample chart",
        [PlotEvent.extracted, PlotEvent.derived 0, PlotEvent.plotted]) :=
  ⟨rfl, rfl, rfl,
    (empty_body_zero_sample_chart ⟨⟨200, "ok"⟩, ⟨200, ""⟩⟩ "u" rfl rfl rfl).1,
    (empty_body_zero_sample_chart ⟨⟨200, "ok"⟩, ⟨200, ""⟩⟩ "u" rfl rfl rfl).2
      (fun _ _ => ⟨1, 0⟩) (fun _ _ _ => "zero-sample chart") ⟨2024, 1, 1, 0, 0, 0⟩⟩

/-- C9: the query URL built for a cutoff timestamp selects epoch strictly
after the cutoff (`%3E` is the URL-encoded `>`, compared against the
ISO-8601 `Z`-suffixed rendering of the cutoff), mean motion > 11.25,
eccentricity < 0.25, object type `payload`, ordering by `NORAD_CAT_ID`
then `EPOCH`, in three-line element (`3le`) format. -/
theorem query_url_filters (t : DT) :
    containsStr (buildQueryUrl t) ("/EPOCH/%3E" ++ strftimeISO t) ∧
    (∃ u, strftimeISO t = u ++ "Z") ∧
    containsStr (buildQueryUrl t) "/MEAN_MOTION/%3E11.25" ∧
    containsStr (buildQueryUrl t) "/ECCENTRICITY/%3C0.25" ∧
    containsStr (buildQueryUrl t) "/OBJECT_TYPE/payload" ∧
    containsStr (buildQueryUrl t) "/orderby/NORAD_CAT_ID,EPOCH" ∧
    containsStr (buildQueryUrl t) "/format/3le" := by
  have hurl : buildQueryUrl t =
      ("https://www.space-track.org/basicspacedata/query/class/gp/EPOCH/%3E" ++
          strftimeISO t) ++
        "/MEAN_MOTION/%3E11.25/ECCENTRICITY/%3C0.25/OBJECT_TYPE/payload/orderby/NORAD_CAT_ID,EPOCH/format/3le" :=
    rfl
  refine ⟨?_,
    ⟨pad 4 t.year ++ "-" ++ pad 2 t.month ++ "-" ++ pad 2 t.day ++ "T" ++
      pad 2 t.hour ++ ":" ++ pad 2 t.minute ++ ":" ++ pad 2 t.second, rfl⟩,
    ?_, ?_, ?_, ?_, ?_⟩
  · rw [hurl]
    apply containsStr_appendLeft
    unfold containsStr
    rw [show ("https://www.space-track.org/basicspacedata/query/class/gp/EPOCH/%3E" : String) =
      "https://www.space-track.org/basicspacedata/query/class/gp" ++ "/EPOCH/%3E" from by decide]
    simp only [String.data_append, List.append_assoc]
    exact ⟨("https://www.space-track.org/basicspacedata/query/class/gp" : String).data, [],
      by simp⟩
  all_goals
    rw [hurl]
    exact containsStr_appendRight _ _ _ (by decide)

end App
